import Mathlib

/-!
# Verification of the mooR Python worker protocol client

Shallow embedding of `src/tools/example-python-worker/moor_worker.py`:
the typed value (`Var`) copy logic, the key-file parsing and
load-or-generate logic, the enrollment token resolution and retry loop,
the attach handshake outcome dispatch, and the run-loop dispatch step.

Machine integers: FlatBuffer `VarInt` values are modelled as `Int` (the
Python `int` passes through unchanged); `VarFloat` values are carried by
the code as opaque IEEE-754 doubles and are modelled by their bit
pattern as a `Nat`.  Byte strings (UUID byte vectors) are `List Nat`.
Fallible code returns `Except String`.
-/

namespace MoorWorker

/-- Variant tag numbers of the generated `MoorVar.VarUnion` FlatBuffer
union.  The generated schema module is not part of this repository's
sources; only the tag for `VarStr` is ever observable (inside the
placeholder string), and no theorem below depends on its exact value. -/
def varStrTag : Nat := 2

/-- A mooR `Var` / `TypedValue`: a tagged scalar or composite value.
`vFloat` carries the IEEE-754 bit pattern opaquely (the source copies
the double through without inspecting it).  `vStr ""` also models a
FlatBuffer string field that is absent (`None`), since the source
treats both identically (`if str_val:` is false for both).
`vUnknown t` models a variant with an unrecognized union tag `t`. -/
inductive Var where
  | vInt (value : Int)
  | vFloat (bits : Nat)
  | vStr (value : String)
  | vList (elements : List Var)
  | vUnknown (variantType : Nat)

/-- The placeholder `Var` built by the fall-through arm of `_copy_var`:
`f"<unsupported_type_{variant_type}>"` wrapped as a `VarStr`. -/
def unsupportedPlaceholder (variantType : Nat) : Var :=
  Var.vStr ("<unsupported_type_" ++ toString variantType ++ ">")

mutual

/-- `MoorWorker._copy_var`: copy a `Var` from an inbound buffer into an
outbound builder.  A `VarStr` whose value is truthy is copied; a falsy
value (empty or absent string) falls through to the placeholder arm.
`VarInt`, `VarFloat` are copied by value; `VarList` is copied by
recursively copying each (present) element in order.  Any other variant
tag falls through to the `<unsupported_type_N>` string placeholder. -/
def copyVar : Var → Var
  | Var.vInt n => Var.vInt n
  | Var.vFloat b => Var.vFloat b
  | Var.vStr s => if s = "" then unsupportedPlaceholder varStrTag else Var.vStr s
  | Var.vList es => Var.vList (copyVarList es)
  | Var.vUnknown t => unsupportedPlaceholder t

/-- Elementwise copy of a `VarList`'s elements (the `for i in range(...)`
loop inside the `VarList` arm of `_copy_var`). -/
def copyVarList : List Var → List Var
  | [] => []
  | v :: vs => copyVar v :: copyVarList vs

end

mutual

/-- A `Var` built only from the known variants (no unrecognized union
tag anywhere) in which every string value is nonempty (truthy). -/
def knownNoEmptyStr : Var → Bool
  | Var.vInt _ => true
  | Var.vFloat _ => true
  | Var.vStr s => decide (s ≠ "")
  | Var.vList es => knownNoEmptyStrList es
  | Var.vUnknown _ => false

/-- `knownNoEmptyStr` on each element of a list. -/
def knownNoEmptyStrList : List Var → Bool
  | [] => true
  | v :: vs => knownNoEmptyStr v && knownNoEmptyStrList vs

end

mutual

/-- Helper: `_copy_var` is the identity on known variants without empty
strings. -/
theorem copyVar_id_aux : ∀ v : Var, knownNoEmptyStr v = true → copyVar v = v
  | Var.vInt _, _ => rfl
  | Var.vFloat _, _ => rfl
  | Var.vStr s, h => by
      have hs : s ≠ "" := by simpa [knownNoEmptyStr] using h
      simp [copyVar, hs]
  | Var.vList es, h => by
      have hes : knownNoEmptyStrList es = true := by
        simpa [knownNoEmptyStr] using h
      simp [copyVar, copyVarList_id_aux es hes]
  | Var.vUnknown _, h => by simp [knownNoEmptyStr] at h

/-- Helper: elementwise version of `copyVar_id_aux`. -/
theorem copyVarList_id_aux :
    ∀ vs : List Var, knownNoEmptyStrList vs = true → copyVarList vs = vs
  | [], _ => rfl
  | v :: vs, h => by
      have h1 : knownNoEmptyStr v = true := by
        have := h
        simp [knownNoEmptyStrList, Bool.and_eq_true] at this
        exact this.1
      have h2 : knownNoEmptyStrList vs = true := by
        have := h
        simp [knownNoEmptyStrList, Bool.and_eq_true] at this
        exact this.2
      simp [copyVarList, copyVar_id_aux v h1, copyVarList_id_aux vs h2]

end

/-! ## The dispatch loop (`MoorWorker.run` and `MoorWorker._handle_request`) -/

/-- `uuid.UUID(bytes=b)`: succeeds exactly when `b` is 16 bytes long,
otherwise raises `ValueError("bytes is not a 16-char string")`.  The
UUID value is modelled by its byte vector. -/
def uuidOfBytes (b : List Nat) : Except String (List Nat) :=
  if b.length = 16 then Except.ok b else Except.error "bytes is not a 16-char string"

/-- A decoded `WorkerRequest` FlatBuffer table: the destination worker
UUID byte vector (absent when the `worker_id` field is missing), the
request UUID byte vector (absent when the `id` field is missing), and
the (present) argument `Var`s in order. -/
structure WorkerRequestMsg where
  workerId : Option (List Nat)
  id : Option (List Nat)
  request : List Var

/-- A message sent on the correlated response channel by the loop: a
`RequestResult` (worker id, request id, result payload) or a
`WorkerPong` (worker id, worker type). -/
inductive SentMsg where
  | requestResult (workerId : List Nat) (requestId : List Nat) (result : Var)
  | workerPong (workerId : List Nat) (workerType : String)

/-- `MoorWorker._build_request_result`'s payload: the list
`["echo_response", ...args]` where each argument `Var` is copied from
the inbound buffer by `_copy_var`.  The result does not depend on the
`process_func` callback passed to `run` (the source never calls it;
its own docstring says "currently unused"). -/
def buildRequestResultPayload (args : List Var) : Var :=
  Var.vList (Var.vStr "echo_response" :: args.map copyVar)

/-- `MoorWorker._handle_request`: drop the message when the destination
worker id is absent or names another worker, drop it when the request
id is absent, otherwise send exactly one `RequestResult`.  An
`Except.error` models a raised exception (a UUID byte vector of the
wrong length), which the caller `run` catches. -/
def handleRequest (selfId : List Nat) (req : WorkerRequestMsg) :
    Except String (List SentMsg) :=
  match req.workerId with
  | none => Except.ok []
  | some b =>
    match uuidOfBytes b with
    | Except.error e => Except.error e
    | Except.ok target =>
      if target ≠ selfId then Except.ok []
      else
        match req.id with
        | none => Except.ok []
        | some rb =>
          match uuidOfBytes rb with
          | Except.error e => Except.error e
          | Except.ok requestId =>
            Except.ok [SentMsg.requestResult selfId requestId
              (buildRequestResultPayload req.request)]

/-- A decoded `DaemonToWorkerMessage`, by union tag: `PingWorkers`,
`WorkerRequest`, `PleaseDie` (with its optional target worker UUID byte
vector), or an unrecognized tag. -/
inductive DaemonMsg where
  | pingWorkers
  | workerRequest (req : WorkerRequestMsg)
  | pleaseDie (workerId : Option (List Nat))
  | unknownType (msgType : Nat)

/-- What one blocking `recv_multipart` in `run` produced:
fewer than two parts, a failure while decoding `parts[1]` (a raised
exception from `GetRootAs` or the FlatBuffer accessors), or a decoded
message. -/
inductive RecvMsg where
  | tooFewParts (n : Nat)
  | decodeError (e : String)
  | msg (m : DaemonMsg)

/-- Whether the `while True` loop in `run` goes to the next iteration
or breaks out. -/
inductive LoopAction where
  | continueLoop
  | exitLoop
deriving DecidableEq

/-- One iteration of `MoorWorker.run`'s `while True` body: malformed
multiparts and decode failures are caught and skipped; `PingWorkers`
answers with a pong; `WorkerRequest` goes to `_handle_request` (a
raised exception is caught by the `except` clause); `PleaseDie` breaks
the loop when untargeted or targeted at this worker; anything else is
logged and skipped.  `processFunc` is the callback handed to `run`
(never invoked by the source).  Returns the loop action and the
messages sent during the iteration. -/
def runStep (selfId : List Nat) (workerType : String)
    (processFunc : List Var → Option Nat → Var) :
    RecvMsg → LoopAction × List SentMsg
  | RecvMsg.tooFewParts _ => (LoopAction.continueLoop, [])
  | RecvMsg.decodeError _ => (LoopAction.continueLoop, [])
  | RecvMsg.msg DaemonMsg.pingWorkers =>
    (LoopAction.continueLoop, [SentMsg.workerPong selfId workerType])
  | RecvMsg.msg (DaemonMsg.workerRequest req) =>
    match handleRequest selfId req with
    | Except.ok sends => (LoopAction.continueLoop, sends)
    | Except.error _ => (LoopAction.continueLoop, [])
  | RecvMsg.msg (DaemonMsg.pleaseDie none) => (LoopAction.exitLoop, [])
  | RecvMsg.msg (DaemonMsg.pleaseDie (some b)) =>
    match uuidOfBytes b with
    | Except.ok target =>
      if target = selfId then (LoopAction.exitLoop, []) else (LoopAction.continueLoop, [])
    | Except.error _ => (LoopAction.continueLoop, [])
  | RecvMsg.msg (DaemonMsg.unknownType _) => (LoopAction.continueLoop, [])

/-! ## The attach handshake (`MoorWorker.attach`) -/

/-- What parsing the single attach reply produced, covering the whole
`try` block: a `WorkerAttached` reply, a `WorkerRejected` or
`WorkerAuthFailed` reply with its (possibly absent) reason string, a
reply that parsed but carried some other union tag, or a raised
exception anywhere during parsing (`GetRootAs` on a malformed or empty
buffer, or a missing `Reply` field). -/
inductive AttachParse where
  | workerAttached
  | workerRejected (reason : Option String)
  | workerAuthFailed (reason : Option String)
  | otherType (t : Nat)
  | unparseable (e : String)

/-- Outcome of `attach`: proceed, or raise a `WorkerError` with the
given message to the caller. -/
inductive AttachResult where
  | success
  | failure (msg : String)
deriving DecidableEq

/-- Python string interpolation of a possibly absent reason
(`f"...: {reason}"` prints `None` for an absent reason). -/
def reasonStr : Option String → String
  | none => "None"
  | some s => s

/-- `MoorWorker.attach`'s dispatch on the parsed reply.  `replyLen` is
`len(reply)`, the number of bytes received; the source only ever prints
it — in particular the `except` fallback treats ANY parse failure as a
successful attach, without checking that the reply was nonempty. -/
def attachOutcome (p : AttachParse) (replyLen : Nat) : AttachResult :=
  match p with
  | AttachParse.workerAttached => AttachResult.success
  | AttachParse.workerRejected r =>
    AttachResult.failure ("Worker rejected: " ++ reasonStr r)
  | AttachParse.workerAuthFailed r =>
    AttachResult.failure ("Worker auth failed: " ++ reasonStr r)
  | AttachParse.otherType _ => AttachResult.success
  | AttachParse.unparseable _ => AttachResult.success

/-! ## Enrollment (`ensure_enrolled`) -/

/-- `max_retries = 30` in `ensure_enrolled`. -/
def maxRetries : Nat := 30

/-- `max_retry_delay_ms = 5000` in `ensure_enrolled`. -/
def maxRetryDelayMs : Nat := 5000

/-- The retry loop of `ensure_enrolled` (`for attempt in range(1,
max_retries + 1)`).  `tryEnroll attempt` models one call of
`enroll_with_daemon` (its error string is the stringified exception);
`remaining` counts the iterations the `for` has left, so the loop is
entered with `remaining = maxRetries` and `attempt = 1`; the
`remaining = 0` arm is the unreachable `raise WorkerError("Enrollment
failed")` after the loop.  Returns the final result, the list of sleep
durations in ms (in order), and the number of attempts made. -/
def ensureEnrolledRetry (tryEnroll : Nat → Except String (String × String)) :
    Nat → Nat → Nat → Except String (String × String) × List Nat × Nat
  | _, _, 0 => (Except.error "Enrollment failed", [], 0)
  | attempt, delayMs, remaining + 1 =>
    match tryEnroll attempt with
    | Except.ok a => (Except.ok a, [], 1)
    | Except.error e =>
      if attempt = maxRetries then
        (Except.error ("Failed to enroll after " ++ toString maxRetries ++
          " retries: " ++ e), [], 1)
      else
        let r := ensureEnrolledRetry tryEnroll (attempt + 1)
          (min (delayMs * 2) maxRetryDelayMs) remaining
        (r.1, delayMs :: r.2.1, r.2.2 + 1)

/-- Python truthiness of an optional string: `None` and `""` are falsy. -/
def pyTruthy : Option String → Bool
  | none => false
  | some s => decide (s ≠ "")

/-- The whitespace characters Python's `str.strip()` removes (the ASCII
ones; this code never feeds it wider Unicode whitespace). -/
def isPySpace (c : Char) : Bool :=
  c = ' ' || c = '\t' || c = '\n' || c = '\r' || c = '\x0b' || c = '\x0c'

/-- Python `str.strip()`: drop leading and trailing whitespace. -/
def pyStrip (s : String) : String :=
  String.mk (((s.data.dropWhile isPySpace).reverse.dropWhile isPySpace).reverse)

/-- The token resolution chain of `ensure_enrolled`.  Each source is
`none` when it does not apply (no explicit argument; no
`--enrollment-token-file` argument or the file raising
`FileNotFoundError`; the XDG default file missing; the environment
variable unset), otherwise `some` of its raw value.  File contents are
stripped (`.strip()`, modelled by `String.trim`); the environment
variable is not.  Mirrors the four `if not token` steps. -/
def resolveToken (explicitTok fileContents xdgContents envVar : Option String) :
    Option String :=
  let token := explicitTok
  let token := if pyTruthy token then token else
    match fileContents with
    | some c => some (pyStrip c)
    | none => token
  let token := if pyTruthy token then token else
    match xdgContents with
    | some c => some (pyStrip c)
    | none => token
  let token := if pyTruthy token then token else envVar
  token

/-- The `raise WorkerError` message when no enrollment token resolves. -/
def noTokenMsg : String :=
  "Not enrolled and no enrollment token provided. Either:\n" ++
  "1. Set MOOR_ENROLLMENT_TOKEN environment variable, or\n" ++
  "2. Use --enrollment-token-file to specify token file path, or\n" ++
  "3. Place token in ${XDG_CONFIG_HOME:-$HOME/.config}/moor/enrollment-token"

/-- A persisted worker identity record (the fields `ensure_enrolled`
reads back). -/
structure WorkerIdentity where
  serviceUuid : String
  daemonCurvePublicKey : String

/-- `ensure_enrolled`: short-circuit on a persisted identity with no
enrollment attempt; otherwise resolve the enrollment token through the
source chain, raising `WorkerError(noTokenMsg)` (with no attempt) when
none resolves, and otherwise run the retry loop starting at attempt 1
with a 100ms delay.  `tryEnroll` takes the resolved token and the
attempt number.  Returns the result, the sleep durations, and the
number of enrollment attempts made. -/
def ensureEnrolled (identity : Option WorkerIdentity)
    (explicitTok fileContents xdgContents envVar : Option String)
    (tryEnroll : String → Nat → Except String (String × String)) :
    Except String (String × String) × List Nat × Nat :=
  match identity with
  | some ident =>
    (Except.ok (ident.daemonCurvePublicKey, ident.serviceUuid), [], 0)
  | none =>
    match resolveToken explicitTok fileContents xdgContents envVar with
    | some tok =>
      if tok ≠ "" then
        ensureEnrolledRetry (tryEnroll tok) 1 100 maxRetries
      else (Except.error noTokenMsg, [], 0)
    | none => (Except.error noTokenMsg, [], 0)

/-! ## The key store (`load_or_generate_keypair`, `_parse_key_file`) -/

/-- A CURVE25519 keypair in Z85-encoded form. -/
structure CurveKeyPair where
  secret : String
  public : String
deriving DecidableEq

/-- Split a character list on a separator, keeping empty pieces
(Python `str.split(sep)` semantics). -/
def splitCharsOn (sep : Char) : List Char → List (List Char)
  | [] => [[]]
  | c :: cs =>
    match splitCharsOn sep cs with
    | [] => [[]]
    | h :: t => if c = sep then [] :: h :: t else (c :: h) :: t

/-- Python `str.splitlines()` for `\n`-terminated text: split on the
newline character, without a final empty piece for a trailing newline. -/
def pySplitLines (s : String) : List String :=
  let pieces := splitCharsOn '\n' s.data
  let pieces := match pieces.reverse with
    | [] :: rest => rest.reverse
    | _ => pieces
  pieces.map String.mk

/-- Python `line.split("=", 1)`: the characters before the first `=`
and the characters after it. -/
def splitOnceEq : List Char → List Char × List Char
  | [] => ([], [])
  | c :: cs =>
    if c = '=' then ([], cs)
    else
      let r := splitOnceEq cs
      (c :: r.1, r.2)

/-- The line scan of `_parse_key_file`: each line is stripped; comment
and blank lines are skipped; on the first line containing `=` whose key
part strips to `expected`, the stripped value is returned when it is 40
characters long and `ValueError` is raised otherwise; if no line
matches, `ValueError("No ... key found in file")` is raised. -/
def parseKeyLines (expected : String) : List String → Except String String
  | [] => Except.error ("No " ++ expected ++ " key found in file")
  | line :: rest =>
    let l := pyStrip line
    if (match l.data with | '#' :: _ => true | _ => false) || l = "" then
      parseKeyLines expected rest
    else if l.data.contains '=' then
      let kv := splitOnceEq l.data
      if pyStrip (String.mk kv.1) = expected then
        let v := pyStrip (String.mk kv.2)
        if v.length = 40 then Except.ok v
        else Except.error ("Invalid " ++ expected ++
          " key length: expected 40, got " ++ toString v.length)
      else parseKeyLines expected rest
    else parseKeyLines expected rest

/-- `_parse_key_file(content, expected_prefix)`. -/
def parseKeyFile (content : String) (expected : String) : Except String String :=
  parseKeyLines expected (pySplitLines content)

/-- `_load_keypair`: parse the secret file then the public file. -/
def loadKeypair (secretContent publicContent : String) :
    Except String CurveKeyPair := do
  let s ← parseKeyFile secretContent "secret"
  let p ← parseKeyFile publicContent "public"
  return { secret := s, public := p }

/-- The on-disk key files for one service type: `none` when the file
does not exist. -/
structure KeyFileStore where
  secretFile : Option String
  publicFile : Option String
deriving DecidableEq

/-- The content `_save_keypair` writes for one key half. -/
def keyFileContent (serviceType keyHalf timestamp value : String) : String :=
  "# mooR " ++ serviceType ++ " CURVE " ++ keyHalf ++ " Key\n" ++
  "# Generated: " ++ timestamp ++ "\n" ++
  (if keyHalf = "Secret" then "secret=" else "public=") ++ value ++ "\n"

/-- Result of `load_or_generate_keypair`: the returned keypair or
raised error, the key files after the call, and whether a fresh
keypair was generated and written. -/
structure KeyStoreResult where
  result : Except String CurveKeyPair
  store : KeyFileStore
  generated : Bool

/-- `load_or_generate_keypair`: when both key files exist, parse them
(a parse failure propagates and nothing is written); otherwise generate
a fresh keypair (`fresh`, since generation is random it is a
parameter), write both files, and return it. -/
def loadOrGenerateKeypair (store : KeyFileStore) (fresh : CurveKeyPair)
    (serviceType timestamp : String) : KeyStoreResult :=
  match store.secretFile, store.publicFile with
  | some sc, some pc =>
    { result := loadKeypair sc pc, store := store, generated := false }
  | _, _ =>
    { result := Except.ok fresh
      store :=
        { secretFile := some (keyFileContent serviceType "Secret" timestamp fresh.secret)
          publicFile := some (keyFileContent serviceType "Public" timestamp fresh.public) }
      generated := true }

/-! ## Claim theorems -/

/-- C2 counterexample: copying a string `Var` whose value is empty does
NOT preserve the value — `_copy_var` falls through to the
`<unsupported_type_N>` placeholder, so a known variant is replaced even
though the claim allows replacement only for unknown variants. -/
theorem c2_counterexample : copyVar (Var.vStr "") ≠ Var.vStr "" := by
  intro h
  have h2 := Var.vStr.inj h
  exact absurd h2 (by decide)

/-- C2 amended: `_copy_var` preserves variant type and value exactly
for every known variant (integer, float, string, or list, recursively)
in which every string value is nonempty; an unknown variant is replaced
by the `<unsupported_type_N>` string placeholder, and so is a string
variant whose value is empty (or absent). -/
theorem c2_copy_var_preserves_known (v : Var) (t : Nat)
    (h : knownNoEmptyStr v = true) :
    copyVar v = v ∧
    copyVar (Var.vUnknown t) = unsupportedPlaceholder t ∧
    copyVar (Var.vStr "") = unsupportedPlaceholder varStrTag :=
  ⟨copyVar_id_aux v h, rfl, rfl⟩

/-- C2 witness: the amended theorem at a concrete nested value. -/
theorem c2_witness :
    copyVar (Var.vList [Var.vInt 5, Var.vStr "hello",
        Var.vList [Var.vFloat 4614253070214989087, Var.vStr "x"]]) =
      Var.vList [Var.vInt 5, Var.vStr "hello",
        Var.vList [Var.vFloat 4614253070214989087, Var.vStr "x"]] ∧
    copyVar (Var.vUnknown 99) = unsupportedPlaceholder 99 ∧
    copyVar (Var.vStr "") = unsupportedPlaceholder varStrTag :=
  c2_copy_var_preserves_known
    (Var.vList [Var.vInt 5, Var.vStr "hello",
      Var.vList [Var.vFloat 4614253070214989087, Var.vStr "x"]]) 99 (by decide)

/-- C3 counterexample: an unparseable attach reply of zero bytes IS
treated as a successful attach — the `except` fallback of `attach`
never checks `len(reply)`, contradicting the claim that an empty reply
is not treated as success. -/
theorem c3_counterexample :
    attachOutcome (AttachParse.unparseable "struct.error: unpack requires a buffer") 0 =
      AttachResult.success := rfl

/-- C3 amended: `attach` proceeds on a reply parsed as
`WorkerAttached`, raises a `WorkerError` to the caller on
`WorkerRejected(reason)` or `WorkerAuthFailed(reason)`, and treats an
unparseable reply as a successful attach unconditionally — regardless
of how many bytes (including zero) the reply contained. -/
theorem c3_attach_outcomes (r : Option String) (len : Nat) (e : String) :
    attachOutcome AttachParse.workerAttached len = AttachResult.success ∧
    attachOutcome (AttachParse.workerRejected r) len =
      AttachResult.failure ("Worker rejected: " ++ reasonStr r) ∧
    attachOutcome (AttachParse.workerAuthFailed r) len =
      AttachResult.failure ("Worker auth failed: " ++ reasonStr r) ∧
    attachOutcome (AttachParse.unparseable e) len = AttachResult.success :=
  ⟨rfl, rfl, rfl, rfl⟩

/-- C3 witness: the amended theorem at a concrete reason, reply length
and parse error. -/
theorem c3_witness :
    attachOutcome AttachParse.workerAttached 64 = AttachResult.success ∧
    attachOutcome (AttachParse.workerRejected (some "denied")) 64 =
      AttachResult.failure ("Worker rejected: " ++ reasonStr (some "denied")) ∧
    attachOutcome (AttachParse.workerAuthFailed (some "denied")) 64 =
      AttachResult.failure ("Worker auth failed: " ++ reasonStr (some "denied")) ∧
    attachOutcome (AttachParse.unparseable "garbage") 64 = AttachResult.success :=
  c3_attach_outcomes (some "denied") 64 "garbage"

/-- C4: when every enrollment attempt fails, the retry loop (entered as
in the source with attempt 1, a 100ms delay and 30 attempts) makes
exactly 30 attempts, sleeps 100, 200, 400, 800, 1600, 3200 and then
5000ms between attempts (doubling from 100ms, capped at 5000ms), and
ends with a retries-exhausted `WorkerError` wrapping the cause of the
last (30th) attempt. -/
theorem c4_backoff_and_exhaustion (errs : Nat → String) :
    ensureEnrolledRetry (fun n => Except.error (errs n)) 1 100 maxRetries =
      (Except.error ("Failed to enroll after 30 retries: " ++ errs 30),
        [100, 200, 400, 800, 1600, 3200] ++ List.replicate 23 5000, 30) := rfl

/-- C4 witness: the theorem at a concrete always-failing enrollment. -/
theorem c4_witness :
    ensureEnrolledRetry (fun n => Except.error ("refused " ++ toString n)) 1 100 maxRetries =
      (Except.error ("Failed to enroll after 30 retries: " ++ ("refused " ++ toString 30)),
        [100, 200, 400, 800, 1600, 3200] ++ List.replicate 23 5000, 30) :=
  c4_backoff_and_exhaustion (fun n => "refused " ++ toString n)

/-- C1 counterexample: the run loop never invokes the processing
callback, so the callback's return value does not become the
`WorkResult` payload.  With an echo callback (`return arguments`) on a
request `["hello"]` addressed to this worker, the payload actually sent
is `["echo_response", "hello"]`, which is not the echo callback's
return value `["hello"]`. -/
theorem c1_counterexample :
    (runStep (List.replicate 16 1) "echo" (fun args _ => Var.vList args)
        (RecvMsg.msg (DaemonMsg.workerRequest
          ⟨some (List.replicate 16 1), some (List.replicate 16 2),
            [Var.vStr "hello"]⟩))).2 =
      [SentMsg.requestResult (List.replicate 16 1) (List.replicate 16 2)
        (Var.vList [Var.vStr "echo_response", Var.vStr "hello"])] ∧
    Var.vList [Var.vStr "echo_response", Var.vStr "hello"] ≠
      (fun (args : List Var) (_ : Option Nat) => Var.vList args)
        [Var.vStr "hello"] none := by
  refine ⟨rfl, ?_⟩
  intro h
  have h2 := Var.vList.inj h
  have h3 := congrArg List.length h2
  simp at h3

/-- C1 amended: for every `WorkRequest` whose destination identifier
equals the session's identifier and which carries a request identifier,
the run loop sends back exactly one `WorkResult` envelope carrying the
worker identifier and the original request identifier, whose payload is
always the fixed list `["echo_response", ...the echoed arguments]`
(each argument copied by `_copy_var`) — the `processCallback` passed to
`run` is never invoked and the payload does not depend on it. -/
theorem c1_result_is_fixed_echo (selfId : List Nat) (workerType : String)
    (f : List Var → Option Nat → Var) (req : WorkerRequestMsg) (rb : List Nat)
    (hw : req.workerId = some selfId) (h16 : selfId.length = 16)
    (hr : req.id = some rb) (hr16 : rb.length = 16) :
    runStep selfId workerType f (RecvMsg.msg (DaemonMsg.workerRequest req)) =
      (LoopAction.continueLoop,
        [SentMsg.requestResult selfId rb (buildRequestResultPayload req.request)]) := by
  simp [runStep, handleRequest, hw, hr, uuidOfBytes, h16, hr16]

/-- C1 witness: the amended theorem at the spec's own example, a
request `["hello"]` addressed to this worker. -/
theorem c1_witness :
    runStep (List.replicate 16 1) "echo" (fun args _ => Var.vList args)
      (RecvMsg.msg (DaemonMsg.workerRequest
        ⟨some (List.replicate 16 1), some (List.replicate 16 2),
          [Var.vStr "hello"]⟩)) =
      (LoopAction.continueLoop,
        [SentMsg.requestResult (List.replicate 16 1) (List.replicate 16 2)
          (buildRequestResultPayload [Var.vStr "hello"])]) :=
  c1_result_is_fixed_echo (List.replicate 16 1) "echo" (fun args _ => Var.vList args)
    ⟨some (List.replicate 16 1), some (List.replicate 16 2), [Var.vStr "hello"]⟩
    (List.replicate 16 2) rfl (by decide) rfl (by decide)

/-- C5: a `WorkRequest` whose destination worker identifier differs
from the session's identifier produces no reply and the loop continues;
and the processing callback is never consulted — the step's outcome is
the same for every callback. -/
theorem c5_broadcast_filtering (selfId : List Nat) (workerType : String)
    (f : List Var → Option Nat → Var) (req : WorkerRequestMsg) (b : List Nat)
    (hb : req.workerId = some b) (h16 : b.length = 16) (hne : b ≠ selfId) :
    runStep selfId workerType f (RecvMsg.msg (DaemonMsg.workerRequest req)) =
      (LoopAction.continueLoop, []) ∧
    ∀ g m, runStep selfId workerType f m = runStep selfId workerType g m := by
  constructor
  · simp [runStep, handleRequest, hb, uuidOfBytes, h16, hne]
  · intro g m
    cases m with
    | tooFewParts n => rfl
    | decodeError e => rfl
    | msg dm => cases dm <;> rfl

/-- C5 witness: the theorem at a concrete mismatched destination. -/
theorem c5_witness :
    runStep (List.replicate 16 1) "echo" (fun args _ => Var.vList args)
      (RecvMsg.msg (DaemonMsg.workerRequest
        ⟨some (List.replicate 16 3), some (List.replicate 16 2),
          [Var.vStr "hello"]⟩)) = (LoopAction.continueLoop, []) ∧
    ∀ g m, runStep (List.replicate 16 1) "echo" (fun args _ => Var.vList args) m =
      runStep (List.replicate 16 1) "echo" g m :=
  c5_broadcast_filtering (List.replicate 16 1) "echo" (fun args _ => Var.vList args)
    ⟨some (List.replicate 16 3), some (List.replicate 16 2), [Var.vStr "hello"]⟩
    (List.replicate 16 3) rfl (by decide) (by decide)

/-- C6: a `PleaseDie` with no target identifier exits the dispatch
loop; one targeted at this worker's identifier exits the loop; one
targeted at a different identifier leaves the loop running. -/
theorem c6_terminate_semantics (selfId : List Nat) (workerType : String)
    (f : List Var → Option Nat → Var) (b : List Nat) (h16 : b.length = 16) :
    (runStep selfId workerType f (RecvMsg.msg (DaemonMsg.pleaseDie none))).1 =
      LoopAction.exitLoop ∧
    (b = selfId →
      (runStep selfId workerType f (RecvMsg.msg (DaemonMsg.pleaseDie (some b)))).1 =
        LoopAction.exitLoop) ∧
    (b ≠ selfId →
      (runStep selfId workerType f (RecvMsg.msg (DaemonMsg.pleaseDie (some b)))).1 =
        LoopAction.continueLoop) := by
  refine ⟨rfl, ?_, ?_⟩
  · intro h
    subst h
    simp [runStep, uuidOfBytes, h16]
  · intro h
    simp [runStep, uuidOfBytes, h16, h]

/-- C6 witness: the theorem at concrete identifiers (the target differs
from the session's identifier, so the targeted arm continues). -/
theorem c6_witness :
    (runStep (List.replicate 16 1) "echo" (fun args _ => Var.vList args)
        (RecvMsg.msg (DaemonMsg.pleaseDie none))).1 = LoopAction.exitLoop ∧
    (List.replicate 16 3 = List.replicate 16 1 →
      (runStep (List.replicate 16 1) "echo" (fun args _ => Var.vList args)
          (RecvMsg.msg (DaemonMsg.pleaseDie (some (List.replicate 16 3))))).1 =
        LoopAction.exitLoop) ∧
    (List.replicate 16 3 ≠ List.replicate 16 1 →
      (runStep (List.replicate 16 1) "echo" (fun args _ => Var.vList args)
          (RecvMsg.msg (DaemonMsg.pleaseDie (some (List.replicate 16 3))))).1 =
        LoopAction.continueLoop) :=
  c6_terminate_semantics (List.replicate 16 1) "echo" (fun args _ => Var.vList args)
    (List.replicate 16 3) (by decide)

/-- C10: a `WorkerRequest` carrying no destination worker identifier is
silently dropped (no callback, no reply, loop continues), and so is one
addressed to this session that carries no request identifier. -/
theorem c10_missing_ids_dropped (selfId : List Nat) (workerType : String)
    (f : List Var → Option Nat → Var) (req1 req2 : WorkerRequestMsg)
    (h1 : req1.workerId = none)
    (h2 : req2.workerId = some selfId) (h16 : selfId.length = 16)
    (h3 : req2.id = none) :
    runStep selfId workerType f (RecvMsg.msg (DaemonMsg.workerRequest req1)) =
      (LoopAction.continueLoop, []) ∧
    runStep selfId workerType f (RecvMsg.msg (DaemonMsg.workerRequest req2)) =
      (LoopAction.continueLoop, []) := by
  constructor
  · simp [runStep, handleRequest, h1]
  · simp [runStep, handleRequest, h2, h3, uuidOfBytes, h16]

/-- C10 witness: the theorem at concrete requests missing the worker
identifier and the request identifier respectively. -/
theorem c10_witness :
    runStep (List.replicate 16 1) "echo" (fun args _ => Var.vList args)
      (RecvMsg.msg (DaemonMsg.workerRequest
        ⟨none, some (List.replicate 16 2), [Var.vStr "hello"]⟩)) =
      (LoopAction.continueLoop, []) ∧
    runStep (List.replicate 16 1) "echo" (fun args _ => Var.vList args)
      (RecvMsg.msg (DaemonMsg.workerRequest
        ⟨some (List.replicate 16 1), none, [Var.vStr "hello"]⟩)) =
      (LoopAction.continueLoop, []) :=
  c10_missing_ids_dropped (List.replicate 16 1) "echo" (fun args _ => Var.vList args)
    ⟨none, some (List.replicate 16 2), [Var.vStr "hello"]⟩
    ⟨some (List.replicate 16 1), none, [Var.vStr "hello"]⟩
    rfl rfl (by decide) rfl

/-- C7: with no persisted identity, the enrollment token is resolved by
trying, in order, the explicit token argument, the token file argument
(stripped), the default config-directory token file (stripped), and the
environment variable; the first source yielding a (truthy, nonempty)
token wins, the resolved token is the one enrollment is attempted with,
and when none resolves `ensure_enrolled` raises the no-token
`WorkerError` with zero enrollment attempts. -/
theorem c7_token_priority (e fc xc env : Option String)
    (tryE : String → Nat → Except String (String × String)) :
    (pyTruthy e = true → resolveToken e fc xc env = e) ∧
    (pyTruthy e = false → ∀ c, fc = some c → pyStrip c ≠ "" →
      resolveToken e fc xc env = some (pyStrip c)) ∧
    (pyTruthy e = false → pyTruthy (fc.map pyStrip) = false →
      ∀ d, xc = some d → pyStrip d ≠ "" →
        resolveToken e fc xc env = some (pyStrip d)) ∧
    (pyTruthy e = false → pyTruthy (fc.map pyStrip) = false →
      pyTruthy (xc.map pyStrip) = false → resolveToken e fc xc env = env) ∧
    (∀ tok, resolveToken e fc xc env = some tok → tok ≠ "" →
      ensureEnrolled none e fc xc env tryE =
        ensureEnrolledRetry (tryE tok) 1 100 maxRetries) ∧
    (pyTruthy (resolveToken e fc xc env) = false →
      ensureEnrolled none e fc xc env tryE = (Except.error noTokenMsg, [], 0)) := by
  have h0 : pyTruthy (some "") = false := by simp [pyTruthy]
  refine ⟨?_, ?_, ?_, ?_, ?_, ?_⟩
  · intro h
    simp [resolveToken, h]
  · intro h c hfc hc
    subst hfc
    have hpt : pyTruthy (some (pyStrip c)) = true := by simp [pyTruthy, hc]
    simp [resolveToken, h, hpt]
  · intro h hfc d hxc hd
    subst hxc
    have hpt : pyTruthy (some (pyStrip d)) = true := by simp [pyTruthy, hd]
    cases fc with
    | none => simp [resolveToken, h, hpt]
    | some c =>
      have hc : pyStrip c = "" := by simpa [pyTruthy] using hfc
      simp [resolveToken, h, hc, h0, hpt]
  · intro h hfc hxc
    cases fc with
    | none =>
      cases xc with
      | none => simp [resolveToken, h]
      | some d =>
        have hd : pyStrip d = "" := by simpa [pyTruthy] using hxc
        simp [resolveToken, h, hd, h0]
    | some c =>
      have hc : pyStrip c = "" := by simpa [pyTruthy] using hfc
      cases xc with
      | none => simp [resolveToken, h, hc, h0]
      | some d =>
        have hd : pyStrip d = "" := by simpa [pyTruthy] using hxc
        simp [resolveToken, h, hc, hd, h0]
  · intro tok htok hne
    simp [ensureEnrolled, htok, hne]
  · intro h
    cases hres : resolveToken e fc xc env with
    | none => simp [ensureEnrolled, hres]
    | some tok =>
      rw [hres] at h
      have : tok = "" := by simpa [pyTruthy] using h
      subst this
      simp [ensureEnrolled, hres]

/-- C7 witness: the theorem at concrete sources (explicit token absent,
token file present), with the no-token arm exercised through the
conjunct on all-falsy sources instantiated at these inputs. -/
theorem c7_witness :
    (pyTruthy (some "tok-123") = true →
      resolveToken (some "tok-123") (some " file-tok ") none none = some "tok-123") ∧
    (pyTruthy (some "tok-123") = false → ∀ c, (some " file-tok " : Option String) = some c →
      pyStrip c ≠ "" →
      resolveToken (some "tok-123") (some " file-tok ") none none = some (pyStrip c)) ∧
    (pyTruthy (some "tok-123") = false →
      pyTruthy ((some " file-tok " : Option String).map pyStrip) = false →
      ∀ d, (none : Option String) = some d → pyStrip d ≠ "" →
        resolveToken (some "tok-123") (some " file-tok ") none none = some (pyStrip d)) ∧
    (pyTruthy (some "tok-123") = false →
      pyTruthy ((some " file-tok " : Option String).map pyStrip) = false →
      pyTruthy ((none : Option String).map pyStrip) = false →
      resolveToken (some "tok-123") (some " file-tok ") none none = none) ∧
    (∀ tok, resolveToken (some "tok-123") (some " file-tok ") none none = some tok →
      tok ≠ "" →
      ensureEnrolled none (some "tok-123") (some " file-tok ") none none
          (fun _ _ => Except.error "down") =
        ensureEnrolledRetry ((fun (_ : String) (_ : Nat) =>
          Except.error (α := String × String) "down") tok) 1 100 maxRetries) ∧
    (pyTruthy (resolveToken (some "tok-123") (some " file-tok ") none none) = false →
      ensureEnrolled none (some "tok-123") (some " file-tok ") none none
          (fun _ _ => Except.error "down") =
        (Except.error noTokenMsg, [], 0)) :=
  c7_token_priority (some "tok-123") (some " file-tok ") none none
    (fun _ _ => Except.error "down")

/-- C8: when both key files exist but either is malformed (wrong value
length or expected field name absent), `load_or_generate_keypair`
raises the parse error, leaves the files untouched and generates
nothing; and a fresh keypair is generated and written only when the
pair of key files is not fully present. -/
theorem c8_no_silent_regeneration (store : KeyFileStore) (fresh : CurveKeyPair)
    (serviceType timestamp : String) (sc pc errMsg : String)
    (hs : store.secretFile = some sc) (hp : store.publicFile = some pc)
    (hbad : loadKeypair sc pc = Except.error errMsg) :
    (loadOrGenerateKeypair store fresh serviceType timestamp).result =
      Except.error errMsg ∧
    (loadOrGenerateKeypair store fresh serviceType timestamp).store = store ∧
    (loadOrGenerateKeypair store fresh serviceType timestamp).generated = false ∧
    ∀ st2 : KeyFileStore,
      (loadOrGenerateKeypair st2 fresh serviceType timestamp).generated = true →
        st2.secretFile = none ∨ st2.publicFile = none := by
  cases store with
  | mk sf pf =>
    simp only [KeyFileStore.mk.injEq] at hs hp ⊢
    subst hs
    subst hp
    refine ⟨by simp [loadOrGenerateKeypair, hbad], rfl, rfl, ?_⟩
    intro st2 h
    cases st2 with
    | mk sf2 pf2 =>
      cases sf2 with
      | none => exact Or.inl rfl
      | some s2 =>
        cases pf2 with
        | none => exact Or.inr rfl
        | some p2 => simp [loadOrGenerateKeypair] at h

/-- C8 witness: the theorem at a concrete store whose secret key file
has a value of the wrong length (3 instead of 40). -/
theorem c8_witness :
    (loadOrGenerateKeypair ⟨some "secret=bad\n", some "public=AAAA\n"⟩
        ⟨"s", "p"⟩ "python-worker" "2026-01-01").result =
      Except.error "Invalid secret key length: expected 40, got 3" ∧
    (loadOrGenerateKeypair ⟨some "secret=bad\n", some "public=AAAA\n"⟩
        ⟨"s", "p"⟩ "python-worker" "2026-01-01").store =
      ⟨some "secret=bad\n", some "public=AAAA\n"⟩ ∧
    (loadOrGenerateKeypair ⟨some "secret=bad\n", some "public=AAAA\n"⟩
        ⟨"s", "p"⟩ "python-worker" "2026-01-01").generated = false ∧
    ∀ st2 : KeyFileStore,
      (loadOrGenerateKeypair st2 ⟨"s", "p"⟩ "python-worker" "2026-01-01").generated = true →
        st2.secretFile = none ∨ st2.publicFile = none :=
  c8_no_silent_regeneration ⟨some "secret=bad\n", some "public=AAAA\n"⟩
    ⟨"s", "p"⟩ "python-worker" "2026-01-01" "secret=bad\n" "public=AAAA\n"
    "Invalid secret key length: expected 40, got 3" rfl rfl rfl

/-- C9: a malformed multipart, a decode failure, or an exception raised
while handling a single message is caught inside the dispatch loop and
the loop continues; the only messages on which the loop exits are
`PleaseDie` messages. -/
theorem c9_loop_survives_bad_messages (selfId : List Nat) (workerType : String)
    (f : List Var → Option Nat → Var) :
    (∀ n, runStep selfId workerType f (RecvMsg.tooFewParts n) =
      (LoopAction.continueLoop, [])) ∧
    (∀ e, runStep selfId workerType f (RecvMsg.decodeError e) =
      (LoopAction.continueLoop, [])) ∧
    (∀ req e, handleRequest selfId req = Except.error e →
      runStep selfId workerType f (RecvMsg.msg (DaemonMsg.workerRequest req)) =
        (LoopAction.continueLoop, [])) ∧
    (∀ m, (runStep selfId workerType f m).1 = LoopAction.exitLoop →
      ∃ target, m = RecvMsg.msg (DaemonMsg.pleaseDie target)) := by
  refine ⟨fun n => rfl, fun e => rfl, ?_, ?_⟩
  · intro req e h
    simp [runStep, h]
  · intro m h
    cases m with
    | tooFewParts n => simp [runStep] at h
    | decodeError e => simp [runStep] at h
    | msg dm =>
      cases dm with
      | pingWorkers => simp [runStep] at h
      | workerRequest req =>
        cases hh : handleRequest selfId req with
        | ok sends => simp [runStep, hh] at h
        | error e => simp [runStep, hh] at h
      | pleaseDie target => exact ⟨target, rfl⟩
      | unknownType t => simp [runStep] at h

/-- C9 witness: the theorem at a concrete session. -/
theorem c9_witness :
    (∀ n, runStep (List.replicate 16 1) "echo" (fun args _ => Var.vList args)
      (RecvMsg.tooFewParts n) = (LoopAction.continueLoop, [])) ∧
    (∀ e, runStep (List.replicate 16 1) "echo" (fun args _ => Var.vList args)
      (RecvMsg.decodeError e) = (LoopAction.continueLoop, [])) ∧
    (∀ req e, handleRequest (List.replicate 16 1) req = Except.error e →
      runStep (List.replicate 16 1) "echo" (fun args _ => Var.vList args)
        (RecvMsg.msg (DaemonMsg.workerRequest req)) = (LoopAction.continueLoop, [])) ∧
    (∀ m, (runStep (List.replicate 16 1) "echo" (fun args _ => Var.vList args) m).1 =
        LoopAction.exitLoop →
      ∃ target, m = RecvMsg.msg (DaemonMsg.pleaseDie target)) :=
  c9_loop_survives_bad_messages (List.replicate 16 1) "echo" (fun args _ => Var.vList args)

end MoorWorker
